import Mathlib

/-!
Shallow embedding of the freelancer-earnings analysis program
(`data_processor.py` and `main.py`) and verification of the spec claims.

Modelling conventions:
- A loaded dataset is a `Table`: the list of column names the CSV provided
  (the SQLite table `freelancers` gets exactly those columns) together with
  the list of records.  Numeric cells are `Option ℚ` (`none` is SQL NULL,
  i.e. a value that failed `pd.to_numeric(..., errors=\x27coerce\x27)` or was
  absent); text cells are `Option String`.  Rationals stand in for SQLite
  REAL / numpy float64; exact arithmetic replaces float rounding, which no
  claim depends on.
- Each `get_*` method returns `Except String α`: `.error` models a Python
  exception escaping the method (SQLite `no such column` at query prepare
  time, or a `TypeError` from Python-level arithmetic on `None`).
- SQLite behaviours embedded below (each was checked against SQLite 3.40):
  `LIKE` is ASCII-case-insensitive; a NULL operand makes `LIKE`/`NOT LIKE`
  NULL, so such rows match neither branch of a `CASE`; `AVG`/`SUM` ignore
  NULL and return NULL on zero inputs; `GROUP BY` makes NULL its own group;
  `ORDER BY ... ASC` puts NULL first; division by zero yields NULL.
- pandas `read_sql_query` delivers an all-NULL result column as Python
  `None` objects (object dtype), and a mixed column as float64 with NaN;
  arithmetic on `None` raises `TypeError`, which we surface as `.error`.
-/

attribute [local semireducible] Rat.add Rat.sub Rat.mul Rat.inv Rat.ofScientific

/-- Whether `needle` occurs as a contiguous segment of `hay`. -/
def listHasInfix (needle : List Char) : List Char → Bool
  | [] => needle.isEmpty
  | h :: hs => needle.isPrefixOf (h :: hs) || listHasInfix needle hs

/-- The characters of a string, lower-cased. -/
def lowerChars (s : String) : List Char := s.toList.map Char.toLower

/-- Case-insensitive substring test: SQLite `hay LIKE \x27%pat%\x27` for TEXT
values (ASCII case folding; `Char.toLower` is an adequate model for the
data in scope). -/
def likeContains (hay pat : String) : Bool :=
  listHasInfix (lowerChars pat) (lowerChars hay)

instance {ε α : Type} [DecidableEq ε] [DecidableEq α] :
    DecidableEq (Except ε α) := fun a b =>
  match a, b with
  | .error x, .error y =>
      if h : x = y then isTrue (by rw [h])
      else isFalse (by intro hc; injection hc with h2; exact h h2)
  | .error _, .ok _ => isFalse (by intro hc; exact Except.noConfusion hc)
  | .ok _, .error _ => isFalse (by intro hc; exact Except.noConfusion hc)
  | .ok x, .ok y =>
      if h : x = y then isTrue (by rw [h])
      else isFalse (by intro hc; injection hc with h2; exact h h2)

/-- `col LIKE \x27%pat%\x27` on a nullable column: NULL yields NULL, which a
`WHERE` or `CASE WHEN` treats as not-true. -/
def optLike (v : Option String) (pat : String) : Bool :=
  match v with
  | none => false
  | some s => likeContains s pat

/-- `col NOT LIKE \x27%pat%\x27` on a nullable column: NULL again yields NULL,
so a NULL cell matches neither `LIKE` nor `NOT LIKE`. -/
def optNotLike (v : Option String) (pat : String) : Bool :=
  match v with
  | none => false
  | some s => !likeContains s pat

/-- SQLite `AVG` over a column of nullable numbers: NULL entries are ignored
and the average of zero non-NULL entries is NULL. -/
def avgQ (xs : List (Option ℚ)) : Option ℚ :=
  let present := xs.filterMap id
  if present = [] then none else some (present.sum / (present.length : ℚ))

/-- One row of the `freelancers` table, restricted to the columns the
queries in `data_processor.py` reference.  A `none` cell is SQL NULL. -/
structure Record where
  earnings : Option ℚ
  projects_completed : Option ℚ
  years_of_experience : Option ℚ
  payment_methods : Option String
  expertise_level : Option String
  region : Option String
  education_level : Option String
  skills : Option String
deriving DecidableEq

/-- The loaded dataset: the SQLite table produced by `DataProcessor._load_data`
(`df.to_sql`).  `columns` is the column-name list of the source CSV; a query
that references a name not in it fails to prepare with `no such column`. -/
structure Table where
  columns : List String
  records : List Record
deriving DecidableEq

/-- Resolve the table columns a query references, in the order the query text
mentions them; the first absent one raises `no such column: c` (SQLite
prepare-time error, surfaced by `pd.read_sql_query`). -/
def requireCols (t : Table) (cs : List String) : Except String Unit :=
  match cs.find? (fun c => decide (c ∉ t.columns)) with
  | some c => .error ("no such column: " ++ c)
  | none => .ok ()

/-- A record whose `payment_methods` matches `LIKE \x27%cryptocurrency%\x27`. -/
def cryptoMatch (r : Record) : Bool :=
  optLike r.payment_methods "cryptocurrency"

/-- A record whose `payment_methods` matches `NOT LIKE \x27%cryptocurrency%\x27`
(NULL `payment_methods` matches neither). -/
def otherMatch (r : Record) : Bool :=
  optNotLike r.payment_methods "cryptocurrency"

/-- Mean `earnings` of the crypto partition: value of
`AVG(CASE WHEN payment_methods LIKE \x27%cryptocurrency%\x27 THEN earnings END)`. -/
def cryptoAvg (t : Table) : Option ℚ :=
  avgQ ((t.records.filter cryptoMatch).map Record.earnings)

/-- Mean `earnings` of the non-crypto partition: value of
`AVG(CASE WHEN payment_methods NOT LIKE \x27%cryptocurrency%\x27 THEN earnings END)`. -/
def otherAvg (t : Table) : Option ℚ :=
  avgQ ((t.records.filter otherMatch).map Record.earnings)

/-- A Python float64 value as it can appear in `difference_percentage`:
a finite value, NaN, or a signed infinity.  `ℚ` stands for the finite
values (exact arithmetic in place of binary rounding; the claims only
distinguish finite / infinite / NaN). -/
inductive PyFloat where
  | val : ℚ → PyFloat
  | nan : PyFloat
  | inf : PyFloat
  | ninf : PyFloat
deriving DecidableEq

/-- IEEE-754 subtraction on the embedded float values. -/
def PyFloat.sub : PyFloat → PyFloat → PyFloat
  | .nan, _ => .nan
  | _, .nan => .nan
  | .val a, .val b => .val (a - b)
  | .val _, .inf => .ninf
  | .val _, .ninf => .inf
  | .inf, .val _ => .inf
  | .inf, .inf => .nan
  | .inf, .ninf => .inf
  | .ninf, .val _ => .ninf
  | .ninf, .inf => .ninf
  | .ninf, .ninf => .nan

/-- IEEE-754 division on the embedded float values.  Dividing a nonzero
finite value by zero gives a signed infinity, `0/0` gives NaN (numpy
float64 semantics: a warning, not an exception; ℚ has no signed zero,
which no claim needs). -/
def PyFloat.div : PyFloat → PyFloat → PyFloat
  | .nan, _ => .nan
  | _, .nan => .nan
  | .val a, .val b =>
      if b = 0 then (if a = 0 then .nan else if 0 < a then .inf else .ninf)
      else .val (a / b)
  | .val _, .inf => .val 0
  | .val _, .ninf => .val 0
  | .inf, .val b => if 0 ≤ b then .inf else .ninf
  | .inf, .inf => .nan
  | .inf, .ninf => .nan
  | .ninf, .val b => if 0 ≤ b then .ninf else .inf
  | .ninf, .inf => .nan
  | .ninf, .ninf => .nan

/-- IEEE-754 multiplication on the embedded float values. -/
def PyFloat.mul : PyFloat → PyFloat → PyFloat
  | .nan, _ => .nan
  | _, .nan => .nan
  | .val a, .val b => .val (a * b)
  | .inf, .val b => if b = 0 then .nan else if 0 < b then .inf else .ninf
  | .val a, .inf => if a = 0 then .nan else if 0 < a then .inf else .ninf
  | .ninf, .val b => if b = 0 then .nan else if 0 < b then .ninf else .inf
  | .val a, .ninf => if a = 0 then .nan else if 0 < a then .ninf else .inf
  | .inf, .inf => .inf
  | .inf, .ninf => .ninf
  | .ninf, .inf => .ninf
  | .ninf, .ninf => .inf

/-- The dict returned by `get_crypto_vs_other_earnings` when it returns at
all: both partition means were present (floats), and
`difference_percentage = ((crypto - other) / other) * 100` computed in
Python float arithmetic. -/
structure CryptoResult where
  crypto_earnings : ℚ
  other_earnings : ℚ
  difference_percentage : PyFloat
deriving DecidableEq

/-- The TypeError Python raises when `-` is applied to `None` (pandas hands
back `None` for an all-NULL result column). -/
def pyNoneSubTypeError : String :=
  "TypeError: unsupported operand type(s) for -: NoneType and float"

/-- `DataProcessor.get_crypto_vs_other_earnings`.  The SQL computes the two
partition means (a partition with no present `earnings` gives NULL, which
pandas delivers as `None`); the method then evaluates
`((crypto_earnings - other_earnings) / other_earnings) * 100` in Python,
which raises `TypeError` if either operand is `None`. -/
def get_crypto_vs_other_earnings (t : Table) : Except String CryptoResult :=
  match requireCols t ["payment_methods", "earnings"] with
  | .error e => .error e
  | .ok _ =>
    match cryptoAvg t, otherAvg t with
    | some c, some o =>
        .ok ⟨c, o,
          PyFloat.mul (PyFloat.div (PyFloat.sub (.val c) (.val o)) (.val o))
            (.val 100)⟩
    | _, _ => .error pyNoneSubTypeError

/-- A record passing `WHERE expertise_level LIKE \x27%expert%\x27` (NULL fails). -/
def expertMatch (r : Record) : Bool :=
  optLike r.expertise_level "expert"

/-- The SQL condition `projects_completed < 100`: NULL compares to NULL, so
the `CASE WHEN` takes the `ELSE 0` branch for a missing count. -/
def lt100 (r : Record) : Bool :=
  match r.projects_completed with
  | some p => decide (p < 100)
  | none => false

/-- The dict returned by `get_expert_projects_stats`.  `COUNT(*)` is never
NULL, but `SUM` over zero rows is NULL and SQLite division by zero is NULL,
so the other two fields are nullable; pandas hands NULL back as `None`. -/
structure ExpertStats where
  total_experts : Nat
  experts_less_than_100 : Option Nat
  percentage : Option ℚ
deriving DecidableEq

/-- `DataProcessor.get_expert_projects_stats`: filter to rows whose
`expertise_level` contains "expert" case-insensitively, count them, count
those with `projects_completed < 100`, and compute
`experts_less_than_100 * 100.0 / total_experts`.  With zero experts the
`SUM` is NULL and the percentage expression is NULL (NULL propagation and
NULL-on-division-by-zero agree here). -/
def get_expert_projects_stats (t : Table) : Except String ExpertStats :=
  match requireCols t ["projects_completed", "expertise_level"] with
  | .error e => .error e
  | .ok _ =>
    let experts := t.records.filter expertMatch
    let total := experts.length
    if total = 0 then .ok ⟨0, none, none⟩
    else
      let lt := (experts.filter lt100).length
      .ok ⟨total, some lt, some ((lt : ℚ) * 100 / (total : ℚ))⟩

/-- For each key in `ks`, the mean of `earnings` over the records whose
grouping column equals that key (`AVG` skips NULL earnings). -/
def meansFor {α : Type} [DecidableEq α] (t : Table) (key : Record → α)
    (ks : List α) : List (α × Option ℚ) :=
  ks.map (fun k =>
    (k, avgQ ((t.records.filter (fun r => decide (key r = k))).map Record.earnings)))

/-- `SELECT key, AVG(earnings) ... GROUP BY key`: one group per distinct
value of the column, NULL included as its own group (SQLite).  The group
order is insignificant for the claims about these queries; we enumerate
distinct keys with `List.dedup`. -/
def groupMeans {α : Type} [DecidableEq α] (t : Table) (key : Record → α) :
    List (α × Option ℚ) :=
  meansFor t key ((t.records.map key).dedup)

/-- `DataProcessor.get_earnings_by_region`: group by `region` (NULL region
is its own group), mean `earnings` per group, returned as the dict
`dict(zip(result[region], result[avg_earnings]))`. -/
def get_earnings_by_region (t : Table) :
    Except String (List (Option String × Option ℚ)) :=
  match requireCols t ["region", "earnings"] with
  | .error e => .error e
  | .ok _ => .ok (groupMeans t Record.region)

/-- `DataProcessor.get_earnings_by_education`: same query shape with
`education_level` as the grouping column. -/
def get_earnings_by_education (t : Table) :
    Except String (List (Option String × Option ℚ)) :=
  match requireCols t ["education_level", "earnings"] with
  | .error e => .error e
  | .ok _ => .ok (groupMeans t Record.education_level)

/-- The SQLite `ORDER BY years_of_experience` (ascending) relation on the
nullable numeric key: NULL orders before every number. -/
def expLe : Option ℚ → Option ℚ → Prop
  | none, _ => True
  | some _, none => False
  | some a, some b => a ≤ b

instance : DecidableRel expLe := fun a b =>
  match a, b with
  | none, _ => isTrue trivial
  | some _, none => isFalse (fun h => h)
  | some x, some y => inferInstanceAs (Decidable (x ≤ y))

instance : IsTotal (Option ℚ) expLe where
  total a b := by
    cases a <;> cases b <;> simp [expLe]
    exact le_total _ _

instance : IsTrans (Option ℚ) expLe where
  trans a b c hab hbc := by
    cases a <;> cases b <;> cases c <;> simp_all [expLe]
    exact le_trans hab hbc

/-- The rows of `SELECT years_of_experience, AVG(earnings) ... GROUP BY
years_of_experience ORDER BY years_of_experience`: distinct keys sorted
ascending (NULL first), each with its group mean. -/
def experiencePairs (t : Table) : List (Option ℚ × Option ℚ) :=
  meansFor t Record.years_of_experience
    (List.insertionSort expLe ((t.records.map Record.years_of_experience).dedup))

/-- `DataProcessor.get_earnings_by_experience`: the ordered rows above,
returned as a Python dict, which preserves the insertion (row) order. -/
def get_earnings_by_experience (t : Table) :
    Except String (List (Option ℚ × Option ℚ)) :=
  match requireCols t ["years_of_experience", "earnings"] with
  | .error e => .error e
  | .ok _ => .ok (experiencePairs t)

/-- `DataProcessor.get_top_skills_earnings`.  Its SQL builds
`WITH RECURSIVE split(skills, rest)` over `freelancers` and then runs
`SELECT TRIM(skills), AVG(earnings) FROM split ... GROUP BY TRIM(skills)`.
The CTE `split` carries only the columns `(skills, rest)`, so the outer
reference to `earnings` does not resolve: SQLite fails to prepare the
statement with `no such column: earnings` for every dataset, and
`pd.read_sql_query` raises.  When the `freelancers` table itself lacks a
`skills` column, name resolution fails on the CTE seed first, giving
`no such column: skills` (both behaviours checked against SQLite 3.40).
`top_n` only appears in the `LIMIT` clause and cannot rescue the query. -/
def get_top_skills_earnings (t : Table) (top_n : Nat := 5) :
    Except String (List (String × Option ℚ)) :=
  match requireCols t ["skills"] with
  | .error e => .error e
  | .ok _ =>
    let _ := top_n
    .error "no such column: earnings"

/-- The payload (`result` value) an analysis hands back, one shape per
analysis kind, mirroring the per-kind dict/list shapes in
`data_processor.py`. -/
inductive Payload where
  | crypto : CryptoResult → Payload
  | byRegion : List (Option String × Option ℚ) → Payload
  | expert : ExpertStats → Payload
  | byExperience : List (Option ℚ × Option ℚ) → Payload
  | topSkills : List (String × Option ℚ) → Payload
  | byEducation : List (Option String × Option ℚ) → Payload
deriving DecidableEq

/-- The keys of `FreelancerAnalysisSystem.available_analyses`, the dict both
`__init__` and `load_data` build: the six registered analysis identifiers. -/
def available_analyses : List String :=
  ["crypto_vs_other", "earnings_by_region", "expert_projects",
   "earnings_by_experience", "top_skills", "earnings_by_education"]

/-- Invoke the registered analysis function for a (known) identifier, on the
loaded table.  `top_skills` is called with its default `top_n = 5`. -/
def runAnalysis (t : Table) (name : String) : Except String Payload :=
  if name = "crypto_vs_other" then
    (get_crypto_vs_other_earnings t).map Payload.crypto
  else if name = "earnings_by_region" then
    (get_earnings_by_region t).map Payload.byRegion
  else if name = "expert_projects" then
    (get_expert_projects_stats t).map Payload.expert
  else if name = "earnings_by_experience" then
    (get_earnings_by_experience t).map Payload.byExperience
  else if name = "top_skills" then
    (get_top_skills_earnings t).map Payload.topSkills
  else if name = "earnings_by_education" then
    (get_earnings_by_education t).map Payload.byEducation
  else .error ("KeyError: " ++ name)

/-- The dict `FreelancerAnalysisSystem.analyze_query` returns: either
`\x7b"error": msg\x7d` or `\x7b"analysis_type": ..., "result": ...\x7d`; modelled
with optional fields so the formatter can be stated on every shape. -/
structure AnalysisDict where
  error : Option String
  analysis_type : Option String
  result : Option Payload
deriving DecidableEq

/-- The dispatch step of `FreelancerAnalysisSystem.analyze_query`, after the
external classifier returned `analysis_type` (the part inside the `try`
from the membership test on): an identifier outside
`available_analyses` yields `\x7b"error": "Analysis type \x27...\x27 not
available"\x7d`; otherwise the registered function runs, any exception it
raises being caught by the surrounding `except` into `\x7b"error": str(e)\x7d`. -/
def analyze_query (t : Table) (analysis_type : String) : AnalysisDict :=
  if analysis_type ∈ available_analyses then
    match runAnalysis t analysis_type with
    | .ok p => ⟨none, some analysis_type, some p⟩
    | .error e => ⟨some e, none, none⟩
  else
    ⟨some ("Analysis type \x27" ++ analysis_type ++ "\x27 not available"), none, none⟩

/-- Round to the nearest integer, ties to even (the rounding Python `:.Nf`
formatting applies; binary-representation error is abstracted away). -/
def roundHalfEven (q : ℚ) : ℤ :=
  let n := ⌊q⌋
  let f := q - (n : ℚ)
  if f < 1 / 2 then n
  else if 1 / 2 < f then n + 1
  else if n % 2 = 0 then n else n + 1

/-- Left-pad a digit string with zeros to the given width. -/
def padZeros (s : String) (w : Nat) : String :=
  if s.length ≥ w then s
  else String.mk (List.replicate (w - s.length) '0') ++ s

/-- Python `f"\x7bq:.df\x7d"` on a finite float, modelled on ℚ. -/
def fmtFixed (d : Nat) (q : ℚ) : String :=
  let scaled := roundHalfEven (q * ((10 : ℚ) ^ d))
  let sign := if scaled < 0 then "-" else ""
  let n := scaled.natAbs
  let ip := n / 10 ^ d
  let fp := n % 10 ^ d
  if d = 0 then sign ++ toString ip
  else sign ++ toString ip ++ "." ++ padZeros (toString fp) d

/-- Python `f"\x7bx:.df\x7d"` on a possibly NaN/infinite float. -/
def fmtPyFloat (d : Nat) : PyFloat → String
  | .val q => fmtFixed d q
  | .nan => "nan"
  | .inf => "inf"
  | .ninf => "-inf"

/-- A pandas numeric cell rendered by `f"\x7bv:.2f\x7d"`: NULL became NaN in a
float64 column and prints as `nan`.  (The corner case where pandas keeps
`None` because the whole column is NULL, making the format call raise, is
handled at the call sites that need it.) -/
def fmtMoney (v : Option ℚ) : String :=
  match v with
  | some q => fmtFixed 2 q
  | none => "nan"

/-- `str(...)` of a nullable text key, as it appears in the per-line
rendering (`None` for NULL). -/
def keyStrOpt (v : Option String) : String :=
  match v with
  | some s => s
  | none => "None"

/-- `str(...)` of a nullable float key.  Python prints the shortest float
repr; our model prints one decimal for whole numbers (`1.0`) and six
otherwise, enough for the data in scope (no claim inspects these digits). -/
def keyStrNum (v : Option ℚ) : String :=
  match v with
  | some q => if q.den = 1 then fmtFixed 1 q else fmtFixed 6 q
  | none => "nan"

/-- The TypeError Python raises when `:.1f`/`:.2f` formatting is applied to
`None` (an all-NULL pandas column is delivered as `None` objects). -/
def pyFormatTypeError : String :=
  "TypeError: unsupported format string passed to NoneType.__format__"

/-- One `"- key: $value"` block per mapping entry, joined with newlines, as
the `"\n".join(...)` comprehensions build it.  If every value in a
nonempty mapping is NULL, pandas delivered the value column as `None`
objects and the very first `:.2f` raises. -/
def renderMapLines {α : Type} (keyStr : α → String)
    (l : List (α × Option ℚ)) : Except String String :=
  if !l.isEmpty && l.all (fun p => p.2.isNone) then .error pyFormatTypeError
  else
    .ok (String.intercalate "\n"
      (l.map (fun p => "- " ++ keyStr p.1 ++ ": $" ++ fmtMoney p.2)))

/-- The per-kind rendering of `format_response`, one branch per
`analysis_type` equality test, ending in the catch-all sentence.  A payload
whose shape does not match the branch would make the Python key accesses
raise `KeyError`; this cannot happen for dicts produced by
`analyze_query`. -/
def renderResult (ty : String) (p : Payload) : Except String String :=
  if ty = "crypto_vs_other" then
    match p with
    | .crypto r =>
        .ok ("Crypto vs Other Payment Methods Analysis:\n            - Average earnings for crypto payments: $"
          ++ fmtFixed 2 r.crypto_earnings
          ++ "\n            - Average earnings for other payment methods: $"
          ++ fmtFixed 2 r.other_earnings
          ++ "\n            - Crypto freelancers earn "
          ++ fmtPyFloat 1 r.difference_percentage ++ "% more")
    | _ => .error "KeyError"
  else if ty = "earnings_by_region" then
    match p with
    | .byRegion l =>
        (renderMapLines keyStrOpt l).map (fun s => "Earnings by Region:\n" ++ s)
    | _ => .error "KeyError"
  else if ty = "expert_projects" then
    match p with
    | .expert r =>
        match r.percentage with
        | none => .error pyFormatTypeError
        | some pc =>
            .ok ("Expert Projects Analysis:\n            - Total experts: "
              ++ toString r.total_experts
              ++ "\n            - Experts with <100 projects: "
              ++ (match r.experts_less_than_100 with
                  | some n => toString n
                  | none => "None")
              ++ "\n            - Percentage: " ++ fmtFixed 1 pc ++ "%")
    | _ => .error "KeyError"
  else if ty = "earnings_by_experience" then
    match p with
    | .byExperience l =>
        (renderMapLines (fun k => keyStrNum k ++ " years") l).map
          (fun s => "Earnings by Experience:\n" ++ s)
    | _ => .error "KeyError"
  else if ty = "top_skills" then
    match p with
    | .topSkills l =>
        (renderMapLines id l).map (fun s => "Top Skills by Earnings:\n" ++ s)
    | _ => .error "KeyError"
  else if ty = "earnings_by_education" then
    match p with
    | .byEducation l =>
        (renderMapLines keyStrOpt l).map
          (fun s => "Earnings by Education Level:\n" ++ s)
    | _ => .error "KeyError"
  else
    .ok "Analysis completed, but no specific format available for this type."

/-- `FreelancerAnalysisSystem.format_response`: the `"error" in
analysis_result` test wins over everything else and renders the single
diagnostic `f"Error: \x7b...\x7d"`; otherwise the per-kind branches run on
`analysis_result["analysis_type"]` and `["result"]` (a `.error` models the
`KeyError` a dict missing those keys would raise). -/
def format_response (d : AnalysisDict) : Except String String :=
  match d.error with
  | some e => .ok ("Error: " ++ e)
  | none =>
    match d.analysis_type, d.result with
    | some ty, some p => renderResult ty p
    | _, _ => .error "KeyError"

/-- Outcome of a Python call: a value, or an exception propagating out. -/
inductive PyOutcome (α : Type) where
  | ok : α → PyOutcome α
  | raised : String → PyOutcome α
deriving DecidableEq

/-- Positional-parameter count of `DataProcessor.__init__(self)`: only
`self`. -/
def dataProcessorInitParams : Nat := 1

/-- A Python call `DataProcessor(...)` carrying `args` positional arguments
(counting the implicit `self`): CPython raises `TypeError` when the count
differs from what `__init__` accepts.  On a matching call `__init__` would
run `_load_data` (Kaggle download and CSV ingestion, external collaborators
out of scope); its outcome is irrelevant here because `main.py` never makes
a matching call. -/
def constructDataProcessor (args : Nat) : PyOutcome Unit :=
  if args = dataProcessorInitParams then .ok ()
  else
    .raised ("TypeError: DataProcessor.__init__() takes 1 positional argument but "
      ++ toString args ++ " were given")

/-- `FreelancerAnalysisSystem.load_data(csv_path)`: evaluates
`DataProcessor(csv_path)` — two positional arguments including `self` —
inside `try`; the `except` branch prints the message and re-raises the
exception with a bare `raise`, so it reaches the caller. -/
def load_data (csv_path : String) : PyOutcome Unit :=
  let _ := csv_path
  match constructDataProcessor 2 with
  | .ok u => .ok u
  | .raised e => .raised e

/-- Specification predicate for the group-by queries, written from the spec
wording (to compare against `groupMeans`, translated from the code): the entry
keys are distinct, a key appears iff some record carries that category
value, and each entry value is the mean of `earnings` over the records of
that category that have a present `earnings` value. -/
def groupSpec {α : Type} [DecidableEq α] (t : Table) (key : Record → α)
    (l : List (α × Option ℚ)) : Prop :=
  (l.map Prod.fst).Nodup
  ∧ (∀ k, k ∈ l.map Prod.fst ↔ k ∈ t.records.map key)
  ∧ ∀ p ∈ l,
      p.2 = avgQ ((t.records.filter (fun r => decide (key r = p.1))).map Record.earnings)

/-- The column list of the full source CSV, in its on-disk order. -/
def stdColumns : List String :=
  ["earnings", "projects_completed", "years_of_experience", "payment_methods",
   "expertise_level", "region", "education_level", "skills"]

/-- A row with every cell NULL, updated per test table below. -/
def emptyRecord : Record := ⟨none, none, none, none, none, none, none, none⟩

/-- A dataset with a multi-token `skills` cell. -/
def skillsTable : Table :=
  ⟨stdColumns, [{ emptyRecord with skills := some "a, b", earnings := some 100 }]⟩

/-- A dataset whose single record is not expert-tagged. -/
def noExpertTable : Table :=
  ⟨stdColumns,
   [{ emptyRecord with expertise_level := some "Beginner",
                       projects_completed := some 5, earnings := some 40 }]⟩

/-- A dataset where only the crypto partition has earnings. -/
def cryptoOnlyTable : Table :=
  ⟨stdColumns,
   [{ emptyRecord with payment_methods := some "cryptocurrency", earnings := some 100 }]⟩

/-- A dataset whose non-crypto partition has mean earnings exactly zero. -/
def zeroOtherTable : Table :=
  ⟨stdColumns,
   [{ emptyRecord with payment_methods := some "cryptocurrency", earnings := some 100 },
    { emptyRecord with payment_methods := some "bank", earnings := some 0 }]⟩

/-- A dataset whose single record has a NULL `region`. -/
def missingRegionTable : Table :=
  ⟨stdColumns, [{ emptyRecord with earnings := some 100, education_level := some "BA" }]⟩

/-- A small dataset with two regions and two education levels. -/
def regionTable : Table :=
  ⟨stdColumns,
   [{ emptyRecord with region := some "EU", education_level := some "BA", earnings := some 200 },
    { emptyRecord with region := some "EU", education_level := some "MA", earnings := some 300 },
    { emptyRecord with region := some "US", education_level := some "BA", earnings := some 100 }]⟩

/-- A dataset whose records arrive with experience keys out of order
(including a NULL one). -/
def shuffledYearsTable : Table :=
  ⟨stdColumns,
   [{ emptyRecord with years_of_experience := some 3, earnings := some 30 },
    { emptyRecord with years_of_experience := some 1, earnings := some 10 },
    { emptyRecord with earnings := some 99 },
    { emptyRecord with years_of_experience := some 2, earnings := some 20 }]⟩

/-- A dataset with no crypto-paying record and one NULL `payment_methods`. -/
def noCryptoTable : Table :=
  ⟨stdColumns,
   [{ emptyRecord with payment_methods := some "bank", earnings := some 50 },
    { emptyRecord with earnings := some 100 }]⟩

/-- A loaded CSV that simply has no `skills` column. -/
def noSkillsTable : Table :=
  ⟨["earnings", "region"],
   [{ emptyRecord with region := some "EU", earnings := some 10 }]⟩

/-! Helper lemmas shared by the claim proofs below. -/

theorem requireCols_ok (t : Table) (cs : List String)
    (h : ∀ c ∈ cs, c ∈ t.columns) : requireCols t cs = .ok () := by
  unfold requireCols
  have hf : cs.find? (fun c => decide (c ∉ t.columns)) = none := by
    rw [List.find?_eq_none]
    intro c hc
    simpa using h c hc
  rw [hf]

theorem meansFor_map_fst {α : Type} [DecidableEq α] (t : Table)
    (key : Record → α) (ks : List α) :
    (meansFor t key ks).map Prod.fst = ks := by
  simp [meansFor, List.map_map, Function.comp_def]

theorem groupMeans_spec {α : Type} [DecidableEq α] (t : Table)
    (key : Record → α) : groupSpec t key (groupMeans t key) := by
  refine ⟨?_, ?_, ?_⟩
  · rw [groupMeans, meansFor_map_fst]
    exact List.nodup_dedup _
  · intro k
    rw [groupMeans, meansFor_map_fst, List.mem_dedup]
  · intro p hp
    rcases List.mem_map.mp hp with ⟨k, _, rfl⟩
    rfl

/-- C1.  The claim says `top_skills_earnings` computes a per-skill mean of
earnings over the records whose comma-separated skill list contains the
skill.  The code cannot do this for any dataset: its recursive CTE
`split(skills, rest)` does not carry the `earnings` column, yet the outer
query aggregates `AVG(earnings) FROM split`, so SQLite rejects the whole
statement with `no such column: earnings` and the method raises instead of
computing anything.  This theorem evaluates the translated code on every
dataset that has a `skills` column at all (the claim scenario), for every
`top_n`. -/
theorem claim1_top_skills_no_such_column (t : Table) (n : Nat)
    (h : "skills" ∈ t.columns) :
    get_top_skills_earnings t n = .error "no such column: earnings" := by
  unfold get_top_skills_earnings
  rw [requireCols_ok t ["skills"] (by intro c hc; simp at hc; subst hc; exact h)]

theorem claim1_top_skills_no_such_column_witness :
    "skills" ∈ skillsTable.columns
    ∧ get_top_skills_earnings skillsTable 5 = .error "no such column: earnings" :=
  ⟨by decide, claim1_top_skills_no_such_column skillsTable 5 (by decide)⟩

/-- C2.  `FreelancerAnalysisSystem.load_data` invokes `DataProcessor(csv_path)`
although `DataProcessor.__init__` accepts no argument besides `self`, so the
call raises a `TypeError`, which the `except` branch re-raises after printing;
the loading operation therefore fails for every `csv_path`. -/
theorem claim2_load_data_always_raises (csv_path : String) :
    load_data csv_path
      = .raised ("TypeError: DataProcessor.__init__() takes 1 positional argument but "
          ++ toString 2 ++ " were given") := rfl

/-- C3, counterexample.  On a dataset with zero expert-tagged records the
claim predicts `experts_less_than_100 = 0` and `percentage = 0`; the code
returns SQL NULL (pandas `None`) for both, because `SUM` over zero rows is
NULL and the percentage expression propagates it (SQLite division by zero
is NULL as well). -/
theorem claim3_counterexample :
    noExpertTable.records.all (fun r => !expertMatch r) = true
    ∧ get_expert_projects_stats noExpertTable = .ok ⟨0, none, none⟩
    ∧ (⟨0, none, none⟩ : ExpertStats) ≠ ⟨0, some 0, some 0⟩ := by decide

/-- C3, amended.  On every dataset (with the referenced columns present) in
which no record has an `expertise_level` containing "expert"
case-insensitively, `get_expert_projects_stats` returns `total_experts = 0`
and NULL (not 0) for both `experts_less_than_100` and `percentage`. -/
theorem claim3_amended_zero_experts_null_fields (t : Table)
    (h1 : "projects_completed" ∈ t.columns)
    (h2 : "expertise_level" ∈ t.columns)
    (h3 : t.records.all (fun r => !expertMatch r) = true) :
    get_expert_projects_stats t = .ok ⟨0, none, none⟩ := by
  unfold get_expert_projects_stats
  rw [requireCols_ok t _ (by
    intro c hc
    simp at hc
    rcases hc with rfl | rfl
    · exact h1
    · exact h2)]
  have hfil : t.records.filter expertMatch = [] := by
    rw [List.filter_eq_nil_iff]
    intro r hr
    have := List.all_eq_true.mp h3 r hr
    simp_all
  simp [hfil]

theorem claim3_amended_zero_experts_null_fields_witness :
    ("projects_completed" ∈ noExpertTable.columns
      ∧ "expertise_level" ∈ noExpertTable.columns
      ∧ noExpertTable.records.all (fun r => !expertMatch r) = true)
    ∧ get_expert_projects_stats noExpertTable = .ok ⟨0, none, none⟩ :=
  ⟨⟨by decide, by decide, by decide⟩,
   claim3_amended_zero_experts_null_fields noExpertTable
     (by decide) (by decide) (by decide)⟩

/-- C4, counterexample.  The claim predicts (a) an undefined (absent/NaN)
`difference_percentage` rather than a crash when a partition has no present
earnings, and (b) an explicit flag on division by zero.  The code does
neither: with an empty non-crypto partition the SQL mean is NULL, pandas
hands back `None`, and the subtraction raises a `TypeError`; and with
`other_earnings = 0` the numpy float division silently returns `inf`
inside an ordinary result, with no flag anywhere. -/
theorem claim4_counterexample :
    get_crypto_vs_other_earnings cryptoOnlyTable = .error pyNoneSubTypeError
    ∧ get_crypto_vs_other_earnings zeroOtherTable
        = .ok ⟨100, 0, PyFloat.inf⟩ := by decide

/-- C4, amended.  For every dataset with the referenced columns: if either
partition has no record with a present `earnings`, the method raises the
`None`-arithmetic `TypeError` (a crash, not an undefined value in a
result); and if both means are present with `other_earnings = 0` and a
positive crypto mean, the method returns normally with
`difference_percentage` silently equal to `inf` — no flag of the division
by zero appears in the result. -/
theorem claim4_amended_crash_and_silent_infinity (t : Table)
    (h1 : "payment_methods" ∈ t.columns) (h2 : "earnings" ∈ t.columns) :
    ((cryptoAvg t = none ∨ otherAvg t = none) →
        get_crypto_vs_other_earnings t = .error pyNoneSubTypeError)
    ∧ (∀ c : ℚ, cryptoAvg t = some c → otherAvg t = some 0 → 0 < c →
        get_crypto_vs_other_earnings t = .ok ⟨c, 0, PyFloat.inf⟩) := by
  have hreq : requireCols t ["payment_methods", "earnings"] = .ok () := by
    apply requireCols_ok
    intro c hc
    simp at hc
    rcases hc with rfl | rfl
    · exact h1
    · exact h2
  constructor
  · intro h
    unfold get_crypto_vs_other_earnings
    rw [hreq]
    rcases h with h | h
    · rw [h]
    · rw [h]
      cases cryptoAvg t <;> rfl
  · intro c hc ho hpos
    have hsub : PyFloat.sub (.val c) (.val 0) = .val c := by
      simp [PyFloat.sub]
    have hdiv : PyFloat.div (.val c) (.val 0) = .inf := by
      simp [PyFloat.div, hpos.ne', hpos]
    have hmul : PyFloat.mul .inf (.val 100) = .inf := by
      norm_num [PyFloat.mul]
    unfold get_crypto_vs_other_earnings
    rw [hreq, hc, ho]
    dsimp only
    rw [hsub, hdiv, hmul]

theorem claim4_amended_crash_and_silent_infinity_witness :
    ("payment_methods" ∈ cryptoOnlyTable.columns
      ∧ "earnings" ∈ cryptoOnlyTable.columns
      ∧ otherAvg cryptoOnlyTable = none
      ∧ get_crypto_vs_other_earnings cryptoOnlyTable = .error pyNoneSubTypeError)
    ∧ ("payment_methods" ∈ zeroOtherTable.columns
      ∧ "earnings" ∈ zeroOtherTable.columns
      ∧ cryptoAvg zeroOtherTable = some 100
      ∧ otherAvg zeroOtherTable = some 0
      ∧ get_crypto_vs_other_earnings zeroOtherTable = .ok ⟨100, 0, PyFloat.inf⟩) :=
  ⟨⟨by decide, by decide, by decide,
    (claim4_amended_crash_and_silent_infinity cryptoOnlyTable
        (by decide) (by decide)).1 (Or.inr (by decide))⟩,
   ⟨by decide, by decide, by decide, by decide,
    (claim4_amended_crash_and_silent_infinity zeroOtherTable
        (by decide) (by decide)).2 100 (by decide) (by decide) (by decide)⟩⟩

/-- C5, counterexample.  A record with a NULL `region` does not disappear
from `earnings_by_region`: SQLite groups NULL as its own group, so the
dataset whose only record has no region yields one entry (keyed by the
missing marker) instead of the empty mapping the claim predicts. -/
theorem claim5_counterexample :
    get_earnings_by_region missingRegionTable
      = .ok [((none : Option String), some (100 : ℚ))]
    ∧ [((none : Option String), some (100 : ℚ))] ≠ [] := by decide

/-- C5, amended.  For every dataset with the referenced columns,
`get_earnings_by_region` and `get_earnings_by_education` produce exactly one
entry per distinct category value — records with a missing category forming
their own entry keyed by NULL rather than being dropped — and each entry's
value is the mean of `earnings` over exactly the records of that category
with a present `earnings` value (NULL when there are none). -/
theorem claim5_amended_group_entries (t : Table)
    (lr ld : List (Option String × Option ℚ))
    (hr : get_earnings_by_region t = .ok lr)
    (hd : get_earnings_by_education t = .ok ld) :
    groupSpec t Record.region lr ∧ groupSpec t Record.education_level ld := by
  unfold get_earnings_by_region at hr
  unfold get_earnings_by_education at hd
  cases hq : requireCols t ["region", "earnings"] with
  | error e => rw [hq] at hr; exact absurd hr (by simp)
  | ok u =>
    rw [hq] at hr
    cases hq2 : requireCols t ["education_level", "earnings"] with
    | error e => rw [hq2] at hd; exact absurd hd (by simp)
    | ok u2 =>
      rw [hq2] at hd
      injection hr with hr2
      injection hd with hd2
      subst hr2
      subst hd2
      exact ⟨groupMeans_spec t Record.region, groupMeans_spec t Record.education_level⟩

theorem claim5_amended_group_entries_witness :
    get_earnings_by_region regionTable = .ok (groupMeans regionTable Record.region)
    ∧ get_earnings_by_education regionTable
        = .ok (groupMeans regionTable Record.education_level)
    ∧ groupSpec regionTable Record.region (groupMeans regionTable Record.region)
    ∧ groupSpec regionTable Record.education_level
        (groupMeans regionTable Record.education_level) :=
  ⟨by decide, by decide,
   (claim5_amended_group_entries regionTable
      (groupMeans regionTable Record.region)
      (groupMeans regionTable Record.education_level)
      (by decide) (by decide)).1,
   (claim5_amended_group_entries regionTable
      (groupMeans regionTable Record.region)
      (groupMeans regionTable Record.education_level)
      (by decide) (by decide)).2⟩

/-- C6.  Every row list `get_earnings_by_experience` returns is sorted
ascending by the `years_of_experience` key under the SQLite `ORDER BY ...
ASC` relation (`expLe`, which puts NULL before every number); the theorem
quantifies over every dataset, hence over every input ordering of the
records. -/
theorem claim6_experience_sorted (t : Table) (l : List (Option ℚ × Option ℚ))
    (h : get_earnings_by_experience t = .ok l) :
    List.Sorted expLe (l.map Prod.fst) := by
  unfold get_earnings_by_experience at h
  cases hq : requireCols t ["years_of_experience", "earnings"] with
  | error e => rw [hq] at h; exact absurd h (by simp)
  | ok u =>
    rw [hq] at h
    injection h with h2
    subst h2
    rw [experiencePairs, meansFor_map_fst]
    exact List.sorted_insertionSort expLe _

theorem claim6_experience_sorted_witness :
    get_earnings_by_experience shuffledYearsTable
      = .ok (experiencePairs shuffledYearsTable)
    ∧ List.Sorted expLe ((experiencePairs shuffledYearsTable).map Prod.fst) :=
  ⟨by decide, claim6_experience_sorted shuffledYearsTable _ (by decide)⟩

/-- C7.  For every `analysis_type` outside the six registered identifiers,
the dispatch in `analyze_query` returns the error dict whose message embeds
the offending identifier, and no analysis function is invoked (the result
carries no `analysis_type`/`result` payload at all). -/
theorem claim7_unknown_analysis_error (t : Table) (s : String)
    (h : s ∉ available_analyses) :
    analyze_query t s
      = ⟨some ("Analysis type \x27" ++ s ++ "\x27 not available"), none, none⟩ := by
  unfold analyze_query
  rw [if_neg h]

theorem claim7_unknown_analysis_error_witness :
    "top_5_skills" ∉ available_analyses
    ∧ analyze_query regionTable "top_5_skills"
        = ⟨some ("Analysis type \x27" ++ "top_5_skills" ++ "\x27 not available"),
           none, none⟩ :=
  ⟨by decide,
   claim7_unknown_analysis_error regionTable "top_5_skills" (by decide)⟩

/-- C8, counterexample.  On a dataset in which no record's `payment_methods`
contains "cryptocurrency" the claim predicts an undefined `crypto_earnings`
and `other_earnings` equal to the overall mean.  Instead the code raises
(`None` minus float, because the crypto partition mean is NULL), and the
non-crypto mean it computed (50) is not the overall mean (75): the record
with NULL `payment_methods` is excluded from both partitions. -/
theorem claim8_counterexample :
    noCryptoTable.records.all (fun r => !cryptoMatch r) = true
    ∧ get_crypto_vs_other_earnings noCryptoTable = .error pyNoneSubTypeError
    ∧ otherAvg noCryptoTable = some 50
    ∧ avgQ (noCryptoTable.records.map Record.earnings) = some 75 := by decide

/-- C8, amended.  For every dataset (with the referenced columns) in which
no record's `payment_methods` contains "cryptocurrency": the crypto
partition is empty, so its SQL mean is NULL and
`get_crypto_vs_other_earnings` raises the `None`-arithmetic `TypeError`
instead of returning anything; moreover the non-crypto mean the SQL
computed is the mean of `earnings` over the records with a present
`payment_methods` (records with NULL `payment_methods` belong to neither
partition), which coincides with the overall mean only when every record
has a `payment_methods` value. -/
theorem claim8_amended_no_crypto_raises (t : Table)
    (h1 : "payment_methods" ∈ t.columns) (h2 : "earnings" ∈ t.columns)
    (h3 : t.records.all (fun r => !cryptoMatch r) = true) :
    get_crypto_vs_other_earnings t = .error pyNoneSubTypeError
    ∧ otherAvg t
        = avgQ ((t.records.filter
            (fun r => r.payment_methods.isSome)).map Record.earnings) := by
  have hcr : cryptoAvg t = none := by
    have hfil : t.records.filter cryptoMatch = [] := by
      rw [List.filter_eq_nil_iff]
      intro r hr
      have := List.all_eq_true.mp h3 r hr
      simp_all
    rw [cryptoAvg, hfil]
    rfl
  constructor
  · unfold get_crypto_vs_other_earnings
    rw [requireCols_ok t _ (by
      intro c hc
      simp at hc
      rcases hc with rfl | rfl
      · exact h1
      · exact h2)]
    rw [hcr]
  · rw [otherAvg]
    have hfc : t.records.filter otherMatch
        = t.records.filter (fun r => r.payment_methods.isSome) := by
      apply List.filter_congr
      intro r hr
      have hc := List.all_eq_true.mp h3 r hr
      cases hpm : r.payment_methods with
      | none => simp [otherMatch, optNotLike, hpm]
      | some s =>
        have hl : likeContains s "cryptocurrency" = false := by
          simp [cryptoMatch, optLike, hpm] at hc
          exact hc
        simp [otherMatch, optNotLike, hpm, hl]
    rw [hfc]

theorem claim8_amended_no_crypto_raises_witness :
    ("payment_methods" ∈ noCryptoTable.columns
      ∧ "earnings" ∈ noCryptoTable.columns
      ∧ noCryptoTable.records.all (fun r => !cryptoMatch r) = true)
    ∧ get_crypto_vs_other_earnings noCryptoTable = .error pyNoneSubTypeError
    ∧ otherAvg noCryptoTable
        = avgQ ((noCryptoTable.records.filter
            (fun r => r.payment_methods.isSome)).map Record.earnings) :=
  ⟨⟨by decide, by decide, by decide⟩,
   (claim8_amended_no_crypto_raises noCryptoTable
      (by decide) (by decide) (by decide)).1,
   (claim8_amended_no_crypto_raises noCryptoTable
      (by decide) (by decide) (by decide)).2⟩

/-- C9, counterexample.  With the `skills` column absent the claim predicts
an empty result; the code instead fails: name resolution of the CTE seed
raises `no such column: skills`, so `get_top_skills_earnings` raises rather
than returning the empty mapping. -/
theorem claim9_counterexample :
    get_top_skills_earnings noSkillsTable 5 = .error "no such column: skills"
    ∧ get_top_skills_earnings noSkillsTable 5 ≠ .ok [] := by decide

/-- C9, amended.  For every dataset without a `skills` column and every
`top_n`, `get_top_skills_earnings` raises `no such column: skills` — it
fails rather than returning an empty result (and on datasets with the
column it fails too; see the C1 theorem). -/
theorem claim9_amended_missing_skills_raises (t : Table) (n : Nat)
    (h : "skills" ∉ t.columns) :
    get_top_skills_earnings t n = .error "no such column: skills" := by
  unfold get_top_skills_earnings requireCols
  have hfind : List.find? (fun c => decide (c ∉ t.columns)) ["skills"]
      = some "skills" :=
    List.find?_cons_of_pos _ (by simpa using h)
  rw [hfind]
  decide

theorem claim9_amended_missing_skills_raises_witness :
    "skills" ∉ noSkillsTable.columns
    ∧ get_top_skills_earnings noSkillsTable 5 = .error "no such column: skills" :=
  ⟨by decide,
   claim9_amended_missing_skills_raises noSkillsTable 5 (by decide)⟩

/-- C10.  On every error-shaped input — any dict carrying an `error` key —
`format_response` emits exactly the single diagnostic `Error: msg` and
renders nothing else: the output is independent of whatever
`analysis_type`/`result` payload the dict also carries. -/
theorem claim10_error_single_diagnostic (e : String) (ty : Option String)
    (res : Option Payload) :
    format_response ⟨some e, ty, res⟩ = .ok ("Error: " ++ e)
    ∧ format_response ⟨some e, ty, res⟩ = format_response ⟨some e, none, none⟩ :=
  ⟨rfl, rfl⟩
